import Mathlib

/-!
# Shallow embedding of the unit-converter conversion engine

This file embeds the logic-bearing part of the `unit-converter` repository
(`src/lib/conversions/*.ts`, the date-difference computation of the date
converter form, and the compare computation of the number form) and proves
the specification claims about it.

Conventions of the embedding:
* JavaScript `number` values are embedded as `ℚ` (the repository's arithmetic
  is plain multiplication/division/addition of decimal literals, all exactly
  representable); signed-zero and overflow-to-infinity artifacts of IEEE
  doubles are outside the model.
* Thrown JavaScript errors are embedded as the `.error` branch of `Except`,
  carrying the error's constructor name and message.
* `Date` values are embedded as `Option ℤ` — `some ms` for a valid date that
  holds `ms` milliseconds since the Unix epoch, `none` for `Invalid Date`.
* The host environment's local-timezone data (`getTimezoneOffset`,
  `Intl` timezone names) is an ambient parameter, embedded as a `Tz` record
  of lookup functions passed to the time-engine functions.
-/

/-- A thrown JavaScript error: constructor name (`"Error"`, `"RangeError"`, …)
and message. -/
structure JsError where
  name : String
  message : String
  deriving Repr, DecidableEq

/-- `ConversionResult` from `conversion-utils.ts`: unit identity plus the
display-formatted value string. -/
structure ConversionResult where
  unitId : String
  unitName : String
  symbol : String
  value : String
  deriving Repr, DecidableEq

/-! ## Numeric formatter (`formatNumber` in `conversion-utils.ts`) -/

/-- JavaScript `Math.round`: round half toward positive infinity,
`Math.round x = ⌊x + 1/2⌋`. -/
def jsRound (q : ℚ) : ℤ := ⌊q + 1/2⌋

/-- Split a reversed digit list into groups of three (low-order group first),
as thousands grouping does counting from the right. -/
def chunk3 : List Char → List (List Char)
  | [] => []
  | a :: b :: c :: rest => [a, b, c] :: chunk3 rest
  | xs => [xs]

/-- Render a natural number with US-style comma thousands separators,
as `toLocaleString('en-US')` does for whole numbers. -/
def commaGroupNat (n : ℕ) : String :=
  let ds := (toString n).data
  let grouped := ((chunk3 ds.reverse).map List.reverse).reverse
  String.mk (List.intercalate [','] grouped)

/-- Render an integer with comma grouping and a leading minus sign for
negatives (`Math.round(num).toLocaleString('en-US')`). -/
def formatWholeInt (i : ℤ) : String :=
  if i < 0 then "-" ++ commaGroupNat i.natAbs else commaGroupNat i.natAbs

/-- Round a nonnegative rational to the nearest integer, ties away from zero
(the `halfExpand` rounding used by `Intl.NumberFormat`). -/
def halfExpandRound (q : ℚ) : ℤ := ⌊q + 1/2⌋

/-- Left-pad the decimal rendering of `n` to two characters with `'0'`. -/
def pad2 (n : ℕ) : String :=
  if n < 10 then "0" ++ toString n else toString n

/-- Render a rational with exactly two digits after the decimal point and
comma grouping on the integer part, as
`toLocaleString('en-US', { minimumFractionDigits: 2, maximumFractionDigits: 2 })`. -/
def twoDecString (q : ℚ) : String :=
  let n : ℕ := (halfExpandRound (|q| * 100)).toNat
  (if q < 0 then "-" else "") ++ commaGroupNat (n / 100) ++ "." ++ pad2 (n % 100)

/-- `formatNumber` from `conversion-utils.ts` (duplicated verbatim in
`length.ts` and `temperature.ts`): treat `num` as whole when
`|num - Math.round(num)| < 0.0001`; render whole numbers as the rounded
integer with comma grouping, everything else with exactly two decimals. -/
def formatNumber (num : ℚ) : String :=
  if |num - (jsRound num : ℚ)| < 1/10000 then
    formatWholeInt (jsRound num)
  else
    twoDecString num

/-! ## Linear unit tables (`length.ts`, `volume.ts`, `weight.ts`)

The three TypeScript interfaces `LengthUnit`, `VolumeUnit`, `WeightUnit` are
field-for-field identical; one Lean structure embeds all three. -/

/-- A unit record: id, display name, symbol, and the two conversion closures
to and from the category's base unit. -/
structure UnitDef where
  id : String
  name : String
  symbol : String
  toBase : ℚ → ℚ
  fromBase : ℚ → ℚ

/-- `lengthUnits` from `length.ts`, in declaration order (the order
`Object.values` yields for a string-keyed record). Base unit: meter. -/
def lengthUnits : List UnitDef :=
  [ { id := "kilometer", name := "Kilometers", symbol := "km",
      toBase := fun value => value * 1000, fromBase := fun value => value / 1000 },
    { id := "mile", name := "Miles", symbol := "mi",
      toBase := fun value => value * 1609.344, fromBase := fun value => value / 1609.344 },
    { id := "inch", name := "Inches", symbol := "in",
      toBase := fun value => value * 0.0254, fromBase := fun value => value / 0.0254 },
    { id := "foot", name := "Feet", symbol := "ft",
      toBase := fun value => value * 0.3048, fromBase := fun value => value / 0.3048 },
    { id := "yard", name := "Yards", symbol := "yd",
      toBase := fun value => value * 0.9144, fromBase := fun value => value / 0.9144 },
    { id := "millimeter", name := "Millimeters", symbol := "mm",
      toBase := fun value => value / 1000, fromBase := fun value => value * 1000 },
    { id := "centimeter", name := "Centimeters", symbol := "cm",
      toBase := fun value => value / 100, fromBase := fun value => value * 100 },
    { id := "meter", name := "Meters", symbol := "m",
      toBase := fun value => value, fromBase := fun value => value } ]

/-- `volumeUnits` from `volume.ts`, in declaration order. Base unit: liter. -/
def volumeUnits : List UnitDef :=
  [ { id := "milliliter", name := "Milliliters", symbol := "mL",
      toBase := fun value => value / 1000, fromBase := fun value => value * 1000 },
    { id := "liter", name := "Liters", symbol := "L",
      toBase := fun value => value, fromBase := fun value => value },
    { id := "fluidOunce", name := "Fluid Ounces", symbol := "fl oz",
      toBase := fun value => value * 0.0295735, fromBase := fun value => value / 0.0295735 },
    { id := "cup", name := "Cups", symbol := "cup",
      toBase := fun value => value * 0.236588, fromBase := fun value => value / 0.236588 },
    { id := "pint", name := "Pints", symbol := "pt",
      toBase := fun value => value * 0.473176, fromBase := fun value => value / 0.473176 },
    { id := "quart", name := "Quarts", symbol := "qt",
      toBase := fun value => value * 0.946353, fromBase := fun value => value / 0.946353 },
    { id := "gallon", name := "Gallons", symbol := "gal",
      toBase := fun value => value * 3.78541, fromBase := fun value => value / 3.78541 } ]

/-- `weightUnits` from `weight.ts`, in declaration order. Base unit: kilogram. -/
def weightUnits : List UnitDef :=
  [ { id := "gram", name := "Grams", symbol := "g",
      toBase := fun value => value / 1000, fromBase := fun value => value * 1000 },
    { id := "kilogram", name := "Kilograms", symbol := "kg",
      toBase := fun value => value, fromBase := fun value => value },
    { id := "metricTon", name := "Metric Tons", symbol := "t",
      toBase := fun value => value * 1000, fromBase := fun value => value / 1000 },
    { id := "ounce", name := "Ounces", symbol := "oz",
      toBase := fun value => value * 0.0283495, fromBase := fun value => value / 0.0283495 },
    { id := "pound", name := "Pounds", symbol := "lb",
      toBase := fun value => value * 0.453592, fromBase := fun value => value / 0.453592 },
    { id := "usTon", name := "US Tons", symbol := "ton",
      toBase := fun value => value * 907.185, fromBase := fun value => value / 907.185 },
    { id := "stone", name := "Stone", symbol := "st",
      toBase := fun value => value * 6.35029, fromBase := fun value => value / 6.35029 } ]

/-- Own property names of `Object.prototype`: property access on a plain
object record falls back to these inherited members when the key is not an
own property, and every one of their values is truthy (a function, or the
prototype object itself for `__proto__`). -/
def objectProtoKeys : List String :=
  [ "constructor", "hasOwnProperty", "isPrototypeOf", "propertyIsEnumerable",
    "toLocaleString", "toString", "valueOf", "__defineGetter__",
    "__defineSetter__", "__lookupGetter__", "__lookupSetter__", "__proto__" ]

/-- Result of a JavaScript property access `record[key]` on a string-keyed
record object: an own entry, a truthy member inherited from
`Object.prototype`, or `undefined`. -/
inductive PropLookup (α : Type) where
  | own (a : α)
  | inherited
  | undefinedProp

/-- JavaScript property access `record[k]` for a record whose own
properties are `entries` keyed by `key`: own properties shadow the
prototype; otherwise `Object.prototype` members are found; otherwise the
result is `undefined`. -/
def jsRecordGet {α : Type} (entries : List α) (key : α → String) (k : String) :
    PropLookup α :=
  match entries.find? (fun e => key e == k) with
  | some e => .own e
  | none => if objectProtoKeys.contains k then .inherited else .undefinedProp

/-- The `TypeError` thrown when the lookup hit an inherited
`Object.prototype` member: the `!fromUnit` guard passes (the member is
truthy) and the call `fromUnit.toBase(value)` fails because the member is
not a unit record. Its message does not contain the offending id. -/
def protoCallTypeError : JsError :=
  { name := "TypeError", message := "fromUnit.toBase is not a function" }

/-- The linear conversion algorithm shared verbatim by `convertLength`,
`convertVolume` and `convertWeight`: look up the source unit with a plain
property access (throwing `Invalid unit ID` when it yields `undefined`, and
`TypeError` from the `toBase` call when it yields an inherited
`Object.prototype` member), convert to the base unit, then map every other
unit's `fromBase` over the base value through the formatter. -/
def convertLinear (units : List UnitDef) (value : ℚ) (fromUnitId : String) :
    Except JsError (List ConversionResult) :=
  match jsRecordGet units UnitDef.id fromUnitId with
  | .undefinedProp => .error { name := "Error", message := "Invalid unit ID: " ++ fromUnitId }
  | .inherited => .error protoCallTypeError
  | .own fromUnit =>
    let baseValue := fromUnit.toBase value
    .ok ((units.filter (fun u => u.id != fromUnitId)).map (fun u =>
      { unitId := u.id, unitName := u.name, symbol := u.symbol,
        value := formatNumber (u.fromBase baseValue) }))

/-- `convertLength` from `length.ts`. -/
def convertLength (value : ℚ) (fromUnitId : String) : Except JsError (List ConversionResult) :=
  convertLinear lengthUnits value fromUnitId

/-- `convertVolume` from `volume.ts`. -/
def convertVolume (value : ℚ) (fromUnitId : String) : Except JsError (List ConversionResult) :=
  convertLinear volumeUnits value fromUnitId

/-- `convertWeight` from `weight.ts`. -/
def convertWeight (value : ℚ) (fromUnitId : String) : Except JsError (List ConversionResult) :=
  convertLinear weightUnits value fromUnitId

/-! ## Temperature (`temperature.ts`) -/

/-- A temperature unit record (`TemperatureUnit` interface): identity only,
conversions are direct pairwise formulas. -/
structure TemperatureUnit where
  id : String
  name : String
  symbol : String
  deriving Repr, DecidableEq

/-- `temperatureUnits` from `temperature.ts`, in declaration order. -/
def temperatureUnits : List TemperatureUnit :=
  [ { id := "celsius", name := "Celsius", symbol := "°C" },
    { id := "fahrenheit", name := "Fahrenheit", symbol := "°F" },
    { id := "kelvin", name := "Kelvin", symbol := "K" } ]

/-- `°F = (°C × 9/5) + 32`. -/
def celsiusToFahrenheit (celsius : ℚ) : ℚ := celsius * 9 / 5 + 32

/-- `K = °C + 273.15`. -/
def celsiusToKelvin (celsius : ℚ) : ℚ := celsius + 273.15

/-- `°C = (°F - 32) × 5/9`. -/
def fahrenheitToCelsius (fahrenheit : ℚ) : ℚ := (fahrenheit - 32) * 5 / 9

/-- `K = (°F - 32) × 5/9 + 273.15`. -/
def fahrenheitToKelvin (fahrenheit : ℚ) : ℚ := (fahrenheit - 32) * 5 / 9 + 273.15

/-- `°C = K - 273.15`. -/
def kelvinToCelsius (kelvin : ℚ) : ℚ := kelvin - 273.15

/-- `°F = (K - 273.15) × 9/5 + 32`. -/
def kelvinToFahrenheit (kelvin : ℚ) : ℚ := (kelvin - 273.15) * 9 / 5 + 32

/-- `convertTemperature` from `temperature.ts`: look up the source unit
with a plain property access (throwing `Invalid unit ID` when it yields
`undefined`), then switch on `fromUnitId` itself to emit the two other
scales via the direct formulas, each through the formatter. After a truthy
lookup the source never touches the looked-up value again, so an inherited
`Object.prototype` member passes the guard and falls through to the
`switch` default (`Unsupported temperature unit`), which is unreachable
only for the three own ids. -/
def convertTemperature (value : ℚ) (fromUnitId : String) :
    Except JsError (List ConversionResult) :=
  match jsRecordGet temperatureUnits TemperatureUnit.id fromUnitId with
  | .undefinedProp => .error { name := "Error", message := "Invalid unit ID: " ++ fromUnitId }
  | _ =>
    if fromUnitId == "celsius" then
      .ok [ { unitId := "fahrenheit", unitName := "Fahrenheit", symbol := "°F",
              value := formatNumber (celsiusToFahrenheit value) },
            { unitId := "kelvin", unitName := "Kelvin", symbol := "K",
              value := formatNumber (celsiusToKelvin value) } ]
    else if fromUnitId == "fahrenheit" then
      .ok [ { unitId := "celsius", unitName := "Celsius", symbol := "°C",
              value := formatNumber (fahrenheitToCelsius value) },
            { unitId := "kelvin", unitName := "Kelvin", symbol := "K",
              value := formatNumber (fahrenheitToKelvin value) } ]
    else if fromUnitId == "kelvin" then
      .ok [ { unitId := "celsius", unitName := "Celsius", symbol := "°C",
              value := formatNumber (kelvinToCelsius value) },
            { unitId := "fahrenheit", unitName := "Fahrenheit", symbol := "°F",
              value := formatNumber (kelvinToFahrenheit value) } ]
    else
      .error { name := "Error", message := "Unsupported temperature unit: " ++ fromUnitId }

/-! ## Time engine (`time.ts`)

Calendar arithmetic uses the standard era-based civil-from-days algorithm;
the host's local-timezone data is an ambient `Tz` parameter. -/

/-- `TimeConversionResult` from `time.ts`: the six projections of one instant. -/
structure TimeConversionResult where
  unixSeconds : ℤ
  unixMilliseconds : ℤ
  localDatetime : String
  utcDatetime : String
  timezone : String
  isDST : Bool
  deriving Repr, DecidableEq

/-- The local-timezone environment a JavaScript process runs in:
`getTimezoneOffset` at a UTC instant, the offset applied when a local
wall-clock time is interpreted, and the `Intl` short zone name. -/
structure Tz where
  offsetMinutesAt : ℤ → ℤ
  offsetAtLocal : ℤ → ℤ
  shortName : ℤ → Option String

/-- The UTC environment (all offsets zero). -/
def utcTz : Tz :=
  { offsetMinutesAt := fun _ => 0, offsetAtLocal := fun _ => 0,
    shortName := fun _ => some "UTC" }

/-- Proleptic-Gregorian civil date of day number `z` (days since 1970-01-01),
era-based algorithm. Returns `(year, month, day)`. -/
def civilFromDays (z : ℤ) : ℤ × ℤ × ℤ :=
  let z' := z + 719468
  let era := z'.fdiv 146097
  let doe := z' - era * 146097
  let yoe := (doe - doe.fdiv 1460 + doe.fdiv 36524 - doe.fdiv 146096).fdiv 365
  let y := yoe + era * 400
  let doy := doe - (365 * yoe + yoe.fdiv 4 - yoe.fdiv 100)
  let mp := (5 * doy + 2).fdiv 153
  let d := doy - (153 * mp + 2).fdiv 5 + 1
  let m := mp + (if mp < 10 then 3 else -9)
  (y + (if m ≤ 2 then 1 else 0), m, d)

/-- Day number (days since 1970-01-01) of a civil date, inverse of
`civilFromDays`. -/
def daysFromCivil (y m d : ℤ) : ℤ :=
  let y' := y - (if m ≤ 2 then 1 else 0)
  let era := y'.fdiv 400
  let yoe := y' - era * 400
  let mp := (m + 9) % 12
  let doy := (153 * mp + 2).fdiv 5 + d - 1
  let doe := yoe * 365 + yoe.fdiv 4 - yoe.fdiv 100 + doy
  era * 146097 + doe - 719468

/-- Broken-down calendar date-time. -/
structure CivilDateTime where
  year : ℤ
  month : ℤ
  day : ℤ
  hour : ℤ
  minute : ℤ
  second : ℤ
  millisecond : ℤ
  deriving Repr, DecidableEq

/-- Break an epoch-milliseconds instant into civil components. -/
def civilFromMs (ms : ℤ) : CivilDateTime :=
  let days := ms.fdiv 86400000
  let rem := ms - days * 86400000
  let ymd := civilFromDays days
  { year := ymd.1, month := ymd.2.1, day := ymd.2.2,
    hour := rem.fdiv 3600000, minute := (rem.fdiv 60000) % 60,
    second := (rem.fdiv 1000) % 60, millisecond := rem % 1000 }

/-- Epoch milliseconds of civil components. -/
def msFromCivil (y mo d h mi s milli : ℤ) : ℤ :=
  daysFromCivil y mo d * 86400000 + h * 3600000 + mi * 60000 + s * 1000 + milli

/-- Left-pad a number's decimal rendering to 3 digits. -/
def pad3 (n : ℕ) : String :=
  if n < 10 then "00" ++ toString n else if n < 100 then "0" ++ toString n else toString n

/-- Left-pad a number's decimal rendering to at least `w` digits. -/
def padTo (w : ℕ) (n : ℕ) : String :=
  let s := toString n
  if s.length < w then String.mk (List.replicate (w - s.length) '0') ++ s else s

/-- `Date.prototype.toISOString` for a valid date:
`YYYY-MM-DDTHH:mm:ss.sssZ`, with expanded `±YYYYYY` years outside 0–9999. -/
def isoStringOfMs (ms : ℤ) : String :=
  let c := civilFromMs ms
  let yearStr :=
    if 0 ≤ c.year ∧ c.year ≤ 9999 then padTo 4 c.year.toNat
    else if c.year < 0 then "-" ++ padTo 6 c.year.natAbs
    else "+" ++ padTo 6 c.year.toNat
  yearStr ++ "-" ++ pad2 c.month.toNat ++ "-" ++ pad2 c.day.toNat ++ "T" ++
    pad2 c.hour.toNat ++ ":" ++ pad2 c.minute.toNat ++ ":" ++ pad2 c.second.toNat ++
    "." ++ pad3 c.millisecond.toNat ++ "Z"

/-- `formatLocalDatetime` from `time.ts`: local getters
(`getFullYear` … `getSeconds`) assembled as `YYYY-MM-DDTHH:mm:ss`, fields
zero-padded to two digits via `padStart(2, '0')`, year rendered as-is. -/
def formatLocalDatetime (tz : Tz) (ms : ℤ) : String :=
  let c := civilFromMs (ms - tz.offsetMinutesAt ms * 60000)
  toString c.year ++ "-" ++ pad2 c.month.toNat ++ "-" ++ pad2 c.day.toNat ++ "T" ++
    pad2 c.hour.toNat ++ ":" ++ pad2 c.minute.toNat ++ ":" ++ pad2 c.second.toNat

/-- `getTimezoneInfo` from `time.ts`: `Intl` short zone name (falling back to
`"Unknown"`), and the January-1/July-1 offset heuristic for DST — the instant
is in DST when its offset is smaller than the larger (standard) of the two
reference offsets of its local calendar year. -/
def getTimezoneInfo (tz : Tz) (ms : ℤ) : String × Bool :=
  let timezone := (tz.shortName ms).getD "Unknown"
  let localYear := (civilFromMs (ms - tz.offsetMinutesAt ms * 60000)).year
  let janLocal := msFromCivil localYear 1 1 0 0 0 0
  let julLocal := msFromCivil localYear 7 1 0 0 0 0
  let janUtc := janLocal + tz.offsetAtLocal janLocal * 60000
  let julUtc := julLocal + tz.offsetAtLocal julLocal * 60000
  let stdOffset := max (tz.offsetMinutesAt janUtc) (tz.offsetMinutesAt julUtc)
  (timezone, tz.offsetMinutesAt ms < stdOffset)

/-- `convertDate` from `time.ts`. For an `Invalid Date` the source's
`date.toISOString()` call throws `RangeError: Invalid time value` before the
function can return, so the `NaN`-valued fields computed earlier are never
observable and the embedding errors directly. For a valid date all six
projections are produced: `unixSeconds = Math.floor(ms / 1000)` (modelled as
floor division `Int.fdiv`), `unixMilliseconds = ms`, and the four
string/zone projections. -/
def convertDate (tz : Tz) (date : Option ℤ) : Except JsError TimeConversionResult :=
  match date with
  | none => .error { name := "RangeError", message := "Invalid time value" }
  | some ms =>
    let info := getTimezoneInfo tz ms
    .ok { unixSeconds := ms.fdiv 1000, unixMilliseconds := ms,
          localDatetime := formatLocalDatetime tz ms,
          utcDatetime := isoStringOfMs ms,
          timezone := info.1, isDST := info.2 }

/-- JavaScript `ToIntegerOrInfinity` truncation toward zero for a finite
value. -/
def jsTrunc (q : ℚ) : ℤ := if 0 ≤ q then ⌊q⌋ else ⌈q⌉

/-- `new Date(number)`: `TimeClip` — instants farther than 8.64e15 ms from
the epoch become `Invalid Date`, others are truncated to integral
milliseconds. -/
def mkDateFromNum (q : ℚ) : Option ℤ :=
  if |q| ≤ 8640000000000000 then some (jsTrunc q) else none

/-- `fromUnixSeconds` from `time.ts`: `new Date(seconds * 1000)` projected
through `convertDate`. -/
def fromUnixSeconds (tz : Tz) (seconds : ℚ) : Except JsError TimeConversionResult :=
  convertDate tz (mkDateFromNum (seconds * 1000))

/-- `fromUnixMilliseconds` from `time.ts`: `new Date(milliseconds)` projected
through `convertDate`. -/
def fromUnixMilliseconds (tz : Tz) (milliseconds : ℚ) : Except JsError TimeConversionResult :=
  convertDate tz (mkDateFromNum milliseconds)

/-! ## Date-string parsing (`new Date(string)`)

The embedding models the ECMAScript Date Time String Format
(`YYYY[-MM[-DD]][THH:mm[:ss[.sss]][Z|±HH:mm|±HHmm]]`, with expanded
`±YYYYYY` years); engine-specific lenient fallback formats are outside the
model. Date-only strings are interpreted as UTC, date-time strings without
an offset as local time. -/

/-- Numeric value of a list of decimal digit characters. -/
def digitsVal (l : List Char) : ℕ :=
  l.foldl (fun a c => 10 * a + (c.toNat - 48)) 0

/-- Read exactly `n` decimal digits from the front of `l`. -/
def takeDigits (n : ℕ) (l : List Char) : Option (ℕ × List Char) :=
  let pre := l.take n
  if pre.length = n ∧ pre.all Char.isDigit then some (digitsVal pre, l.drop n) else none

/-- Parse the year field: four digits, or a sign followed by six digits. -/
def parseYearField : List Char → Option (ℤ × List Char)
  | '+' :: r => (takeDigits 6 r).map (fun p => ((p.1 : ℤ), p.2))
  | '-' :: r => (takeDigits 6 r).map (fun p => (-(p.1 : ℤ), p.2))
  | r => (takeDigits 4 r).map (fun p => ((p.1 : ℤ), p.2))

/-- Parse the optional `-MM[-DD]` part; omitted fields default to 1. -/
def parseMonthDay : List Char → Option (ℕ × ℕ × List Char)
  | '-' :: r =>
    match takeDigits 2 r with
    | none => none
    | some (mo, r2) =>
      match r2 with
      | '-' :: r3 => (takeDigits 2 r3).map (fun p => (mo, p.1, p.2))
      | _ => some (mo, 1, r2)
  | l => some (1, 1, l)

/-- Gregorian leap-year test. -/
def isLeapYear (y : ℤ) : Bool := (y % 4 = 0 ∧ y % 100 ≠ 0) ∨ y % 400 = 0

/-- Days in a month of a given year. -/
def daysInMonth (y m : ℤ) : ℤ :=
  if m = 2 then (if isLeapYear y then 29 else 28)
  else if m = 4 ∨ m = 6 ∨ m = 9 ∨ m = 11 then 30
  else 31

/-- Parse the optional fractional-seconds part after `ss`; the value is the
first three fractional digits, right-padded with zeros. -/
def parseFraction : List Char → Option (ℕ × List Char)
  | '.' :: r =>
    let ds := r.takeWhile Char.isDigit
    if ds = [] then none
    else some (digitsVal ((ds ++ ['0', '0', '0']).take 3), r.drop ds.length)
  | l => some (0, l)

/-- Parse `HH:mm[:ss[.sss]]`, returning `(hour, minute, second, ms, rest)`. -/
def parseTimeFields (l : List Char) : Option (ℕ × ℕ × ℕ × ℕ × List Char) :=
  match takeDigits 2 l with
  | none => none
  | some (h, r1) =>
    match r1 with
    | ':' :: r2 =>
      match takeDigits 2 r2 with
      | none => none
      | some (mi, r3) =>
        match r3 with
        | ':' :: r4 =>
          match takeDigits 2 r4 with
          | none => none
          | some (s, r5) =>
            (parseFraction r5).map (fun p => (h, mi, s, p.1, p.2))
        | _ => some (h, mi, 0, 0, r3)
    | _ => none

/-- Parse the trailing offset designator: `Z`, `±HH:mm` or `±HHmm`.
Returns the offset in minutes; `none` in the pair means no designator. -/
def parseOffsetField : List Char → Option (Option ℤ × List Char)
  | [] => some (none, [])
  | 'Z' :: r => some (some 0, r)
  | c :: r =>
    if c = '+' ∨ c = '-' then
      let sgn : ℤ := if c = '+' then 1 else -1
      match takeDigits 2 r with
      | none => none
      | some (oh, r1) =>
        match r1 with
        | ':' :: r2 => (takeDigits 2 r2).map (fun p => (some (sgn * (oh * 60 + p.1)), p.2))
        | _ => (takeDigits 2 r1).map (fun p => (some (sgn * (oh * 60 + p.1)), p.2))
    else none

/-- `TimeClip`: instants farther than 8.64e15 ms from the epoch are invalid. -/
def clipMs (ms : ℤ) : Option ℤ :=
  if ms.natAbs ≤ 8640000000000000 then some ms else none

/-- `new Date(string)`: parse an ECMAScript date-time string to an instant;
`none` is `Invalid Date`. Field ranges are validated (month 1–12, day within
the month, hour ≤ 24 only as `24:00:00.000`, minute/second ≤ 59). -/
def jsParseDate (tz : Tz) (s : String) : Option ℤ :=
  match parseYearField s.data with
  | none => none
  | some (y, r1) =>
    match parseMonthDay r1 with
    | none => none
    | some (mo, d, r2) =>
      if ¬ (1 ≤ mo ∧ (mo : ℤ) ≤ 12 ∧ 1 ≤ d ∧ (d : ℤ) ≤ daysInMonth y mo) then none
      else
        match r2 with
        | [] => clipMs (msFromCivil y mo d 0 0 0 0)
        | 'T' :: r3 =>
          match parseTimeFields r3 with
          | none => none
          | some (h, mi, sec, milli, r4) =>
            if ¬ (h ≤ 24 ∧ mi ≤ 59 ∧ sec ≤ 59 ∧
                  (h = 24 → mi = 0 ∧ sec = 0 ∧ milli = 0)) then none
            else
              let civil := msFromCivil y mo d h mi sec milli
              match parseOffsetField r4 with
              | none => none
              | some (offsetSpec, r5) =>
                if r5 ≠ [] then none
                else match offsetSpec with
                  | some off => clipMs (civil - off * 60000)
                  | none => clipMs (civil + tz.offsetAtLocal civil * 60000)
        | _ => none

/-- `fromLocalDatetime` from `time.ts`: `new Date(datetimeString)` projected
through `convertDate`; no validation of its own. -/
def fromLocalDatetime (tz : Tz) (datetimeString : String) :
    Except JsError TimeConversionResult :=
  convertDate tz (jsParseDate tz datetimeString)

/-- `fromUTCDatetime` from `time.ts`: identical body to `fromLocalDatetime`
(`new Date(datetimeString)` then `convertDate`). -/
def fromUTCDatetime (tz : Tz) (datetimeString : String) :
    Except JsError TimeConversionResult :=
  convertDate tz (jsParseDate tz datetimeString)

/-! ## String-to-number coercion (`Number(value)`) and the Unix validators -/

/-- A JavaScript double as the coercion produces it: `NaN`, an infinity, or a
finite value. -/
inductive JsNum where
  | nan
  | posInf
  | negInf
  | fin (q : ℚ)
  deriving Repr, DecidableEq

/-- ECMAScript whitespace/line-terminator characters, which `Number(string)`
trims before parsing. -/
def jsWhitespace (c : Char) : Bool :=
  ([9, 10, 11, 12, 13, 32, 160, 0x1680, 0x2000, 0x2001, 0x2002, 0x2003, 0x2004,
    0x2005, 0x2006, 0x2007, 0x2008, 0x2009, 0x200A, 0x2028, 0x2029, 0x202F,
    0x205F, 0x3000, 0xFEFF] : List ℕ).contains c.toNat

/-- Value of a hexadecimal digit character. -/
def hexVal (c : Char) : Option ℕ :=
  if c.isDigit then some (c.toNat - 48)
  else if 'a' ≤ c ∧ c ≤ 'f' then some (c.toNat - 87)
  else if 'A' ≤ c ∧ c ≤ 'F' then some (c.toNat - 55)
  else none

/-- Value of a nonempty digit string in the given radix; `none` when empty or
any character is out of range. -/
def radixDigitsVal (radix : ℕ) (l : List Char) : Option ℕ :=
  if l = [] then none
  else l.foldl (fun acc c =>
    match acc, hexVal c with
    | some a, some v => if v < radix then some (radix * a + v) else none
    | _, _ => none) (some 0)

/-- Parse an unsigned decimal literal `digits[.digits][e±digits]`. -/
def parseDecLit (l : List Char) : Option ℚ :=
  let mant := l.takeWhile (fun c => c ≠ 'e' ∧ c ≠ 'E')
  let expPart := l.drop mant.length
  let expOpt : Option ℤ :=
    match expPart with
    | [] => some 0
    | _ :: er =>
      match er with
      | '+' :: ds => if ds ≠ [] ∧ ds.all Char.isDigit then some (digitsVal ds : ℤ) else none
      | '-' :: ds => if ds ≠ [] ∧ ds.all Char.isDigit then some (-(digitsVal ds : ℤ)) else none
      | ds => if ds ≠ [] ∧ ds.all Char.isDigit then some (digitsVal ds : ℤ) else none
  match expOpt with
  | none => none
  | some e =>
    let ip := mant.takeWhile (fun c => c ≠ '.')
    let fpPart := mant.drop ip.length
    let fpOpt : Option (List Char) :=
      match fpPart with
      | [] => some []
      | _ :: fs => if fs.all Char.isDigit then some fs else none
    match fpOpt with
    | none => none
    | some fp =>
      if ip.all Char.isDigit ∧ (ip ≠ [] ∨ fp ≠ []) then
        some (((digitsVal ip : ℚ) + (digitsVal fp : ℚ) / (10 : ℚ) ^ fp.length) * (10 : ℚ) ^ e)
      else none

/-- `Number(string)` (`StringToNumber`): trim ECMAScript whitespace, map the
empty remainder to `0`, accept unsigned non-decimal `0x`/`0o`/`0b` literals,
and otherwise an optionally signed `Infinity` or decimal literal; anything
else is `NaN`. -/
def jsToNumber (s : String) : JsNum :=
  let t := ((s.data.dropWhile jsWhitespace).reverse.dropWhile jsWhitespace).reverse
  match t with
  | [] => .fin 0
  | '0' :: 'x' :: r => match radixDigitsVal 16 r with | some v => .fin v | none => .nan
  | '0' :: 'X' :: r => match radixDigitsVal 16 r with | some v => .fin v | none => .nan
  | '0' :: 'o' :: r => match radixDigitsVal 8 r with | some v => .fin v | none => .nan
  | '0' :: 'O' :: r => match radixDigitsVal 8 r with | some v => .fin v | none => .nan
  | '0' :: 'b' :: r => match radixDigitsVal 2 r with | some v => .fin v | none => .nan
  | '0' :: 'B' :: r => match radixDigitsVal 2 r with | some v => .fin v | none => .nan
  | _ =>
    let sgn : ℚ := match t with | '-' :: _ => -1 | _ => 1
    let u := match t with | '+' :: r => r | '-' :: r => r | r => r
    if u = "Infinity".data then (if sgn = 1 then .posInf else .negInf)
    else
      match parseDecLit u with
      | some q => .fin (sgn * q)
      | none => .nan

/-- `isValidUnixSeconds` from `time.ts`: `Number(value)` must be a finite
non-`NaN` number in `[0, 4102444800]` (year-2100 upper bound). -/
def isValidUnixSeconds (value : String) : Bool :=
  match jsToNumber value with
  | .fin num => decide (0 ≤ num) && decide (num ≤ 4102444800)
  | _ => false

/-- `isValidUnixMilliseconds` from `time.ts`: `Number(value)` must be a
finite non-`NaN` number in `[0, 4102444800000]`. -/
def isValidUnixMilliseconds (value : String) : Bool :=
  match jsToNumber value with
  | .fin num => decide (0 ≤ num) && decide (num ≤ 4102444800000)
  | _ => false

/-! ## Date-difference form and number-relation form -/

/-- The day-difference computation of the date converter form:
`Math.round((toDate.getTime() - fromDate.getTime()) / (1000 * 60 * 60 * 24))`. -/
def dateDiffDays (fromMs toMs : ℤ) : ℤ :=
  jsRound (((toMs - fromMs : ℤ) : ℚ) / (1000 * 60 * 60 * 24))

/-- `handleCompare` of the number converter form:
`diff = second - first`, `percent = first !== 0 ? diff / first * 100 : 0`. -/
def handleCompare (first second : ℚ) : ℚ × ℚ :=
  let diff := second - first
  (diff, if first ≠ 0 then diff / first * 100 else 0)

/-! ## Lemmas about the linear conversion engine -/

/-- When `fid` is the id of a table entry and the table's ids are distinct,
`convertLinear` succeeds with one result per non-source unit and never emits
the source unit. -/
theorem convertLinear_spec (units : List UnitDef) (value : ℚ) (fid : String)
    (hnd : (units.map UnitDef.id).Nodup) (hmem : ∃ u ∈ units, u.id = fid) :
    (convertLinear units value fid).map List.length = .ok (units.length - 1) ∧
    (convertLinear units value fid).map
      (fun rs => rs.all (fun r => r.unitId != fid)) = .ok true := by
  obtain ⟨u, hu, rfl⟩ := hmem
  obtain ⟨l₁, l₂, rfl⟩ := List.append_of_mem hu
  rw [List.map_append, List.map_cons, List.nodup_append] at hnd
  obtain ⟨-, hnd2, hdisj⟩ := hnd
  rw [List.nodup_cons] at hnd2
  obtain ⟨hu2, -⟩ := hnd2
  have h1 : ∀ v ∈ l₁, v.id ≠ u.id := by
    intro v hv heq
    exact hdisj (List.mem_map_of_mem _ hv) (by rw [heq]; exact List.mem_cons_self _ _)
  have h2 : ∀ v ∈ l₂, v.id ≠ u.id := by
    intro v hv heq
    exact hu2 (heq ▸ List.mem_map_of_mem _ hv)
  have hfind : ((l₁ ++ u :: l₂).find? (fun v => v.id == u.id)).isSome := by
    rw [List.find?_isSome]
    exact ⟨u, by simp, by simp⟩
  obtain ⟨w, hw⟩ := Option.isSome_iff_exists.mp hfind
  have hfilter : (l₁ ++ u :: l₂).filter (fun v => v.id != u.id) = l₁ ++ l₂ := by
    rw [List.filter_append, List.filter_cons]
    simp only [bne_self_eq_false, if_neg (by simp : ¬ (false = true))]
    rw [List.filter_eq_self.mpr (fun a ha => by simpa using h1 a ha),
        List.filter_eq_self.mpr (fun a ha => by simpa using h2 a ha)]
  constructor
  · simp only [convertLinear, jsRecordGet, hw, Except.map, hfilter]
    simp only [Except.ok.injEq, List.length_map, List.length_append, List.length_cons]
    omega
  · simp only [convertLinear, jsRecordGet, hw, Except.map, hfilter]
    simp only [Except.ok.injEq, List.all_eq_true]
    intro r hr
    simp only [List.mem_map] at hr
    obtain ⟨v, hv, rfl⟩ := hr
    rcases List.mem_append.mp hv with hv1 | hv2
    · simpa using h1 v hv1
    · simpa using h2 v hv2

/-- C1: for every value and every unit id present in a linear category's
table, `convert` returns `ok` with exactly (unit count − 1) results, none of
which carries the source unit's id — for length, volume and weight alike. -/
theorem claim_C1_linear_completeness (value : ℚ) (fromUnitId : String) :
    ((∃ u ∈ lengthUnits, u.id = fromUnitId) →
      (convertLength value fromUnitId).map List.length = .ok (lengthUnits.length - 1) ∧
      (convertLength value fromUnitId).map
        (fun rs => rs.all (fun r => r.unitId != fromUnitId)) = .ok true) ∧
    ((∃ u ∈ volumeUnits, u.id = fromUnitId) →
      (convertVolume value fromUnitId).map List.length = .ok (volumeUnits.length - 1) ∧
      (convertVolume value fromUnitId).map
        (fun rs => rs.all (fun r => r.unitId != fromUnitId)) = .ok true) ∧
    ((∃ u ∈ weightUnits, u.id = fromUnitId) →
      (convertWeight value fromUnitId).map List.length = .ok (weightUnits.length - 1) ∧
      (convertWeight value fromUnitId).map
        (fun rs => rs.all (fun r => r.unitId != fromUnitId)) = .ok true) :=
  ⟨fun hmem => convertLinear_spec lengthUnits value fromUnitId (by decide) hmem,
   fun hmem => convertLinear_spec volumeUnits value fromUnitId (by decide) hmem,
   fun hmem => convertLinear_spec weightUnits value fromUnitId (by decide) hmem⟩

/-- Witness for C1 at `value = 1` with the base unit of each category. -/
theorem claim_C1_linear_completeness_witness :
    ((convertLength 1 "meter").map List.length = .ok (lengthUnits.length - 1) ∧
      (convertLength 1 "meter").map
        (fun rs => rs.all (fun r => r.unitId != "meter")) = .ok true) ∧
    ((convertVolume 1 "liter").map List.length = .ok (volumeUnits.length - 1) ∧
      (convertVolume 1 "liter").map
        (fun rs => rs.all (fun r => r.unitId != "liter")) = .ok true) ∧
    ((convertWeight 1 "kilogram").map List.length = .ok (weightUnits.length - 1) ∧
      (convertWeight 1 "kilogram").map
        (fun rs => rs.all (fun r => r.unitId != "kilogram")) = .ok true) :=
  ⟨(claim_C1_linear_completeness 1 "meter").1 (by decide),
   (claim_C1_linear_completeness 1 "liter").2.1 (by decide),
   (claim_C1_linear_completeness 1 "kilogram").2.2 (by decide)⟩

/-- The error thrown by every category engine's lookup step for an unknown
unit id. -/
def unknownUnitError (fromUnitId : String) : JsError :=
  { name := "Error", message := "Invalid unit ID: " ++ fromUnitId }

/-- When `fid` is neither a table id nor an `Object.prototype` property
name, `convertLinear` throws `Invalid unit ID: <fid>`. -/
theorem convertLinear_unknown (units : List UnitDef) (value : ℚ) (fid : String)
    (h : ∀ u ∈ units, u.id ≠ fid) (hp : fid ∉ objectProtoKeys) :
    convertLinear units value fid = .error (unknownUnitError fid) := by
  unfold convertLinear jsRecordGet
  rw [List.find?_eq_none.mpr (fun x hx => by simpa using h x hx),
    if_neg (by simpa using hp)]
  rfl

/-- When `fid` is not a table id but is an `Object.prototype` property
name, the lookup is truthy, the guard passes, and `convertLinear` throws
the `TypeError` from the `toBase` call. -/
theorem convertLinear_proto (units : List UnitDef) (value : ℚ) (fid : String)
    (h : ∀ u ∈ units, u.id ≠ fid) (hp : fid ∈ objectProtoKeys) :
    convertLinear units value fid = .error protoCallTypeError := by
  unfold convertLinear jsRecordGet
  rw [List.find?_eq_none.mpr (fun x hx => by simpa using h x hx),
    if_pos (by simpa using hp)]

/-- When `fid` is neither a temperature id nor an `Object.prototype`
property name, `convertTemperature` throws `Invalid unit ID: <fid>` from
the lookup guard. -/
theorem convertTemperature_unknown (value : ℚ) (fid : String)
    (h : ∀ u ∈ temperatureUnits, u.id ≠ fid) (hp : fid ∉ objectProtoKeys) :
    convertTemperature value fid = .error (unknownUnitError fid) := by
  unfold convertTemperature jsRecordGet
  rw [List.find?_eq_none.mpr (fun x hx => by simpa using h x hx),
    if_neg (by simpa using hp)]
  rfl

/-- When `fid` is not a temperature id but is an `Object.prototype`
property name, the truthy lookup passes the guard and the `switch` default
throws `Unsupported temperature unit: <fid>`. -/
theorem convertTemperature_proto (value : ℚ) (fid : String)
    (h : ∀ u ∈ temperatureUnits, u.id ≠ fid) (hp : fid ∈ objectProtoKeys) :
    convertTemperature value fid =
      .error { name := "Error", message := "Unsupported temperature unit: " ++ fid } := by
  have hc : (fid == "celsius") = false := by
    refine beq_eq_false_iff_ne.mpr (fun he => ?_)
    exact h { id := "celsius", name := "Celsius", symbol := "°C" }
      (by simp [temperatureUnits]) he.symm
  have hf : (fid == "fahrenheit") = false := by
    refine beq_eq_false_iff_ne.mpr (fun he => ?_)
    exact h { id := "fahrenheit", name := "Fahrenheit", symbol := "°F" }
      (by simp [temperatureUnits]) he.symm
  have hk : (fid == "kelvin") = false := by
    refine beq_eq_false_iff_ne.mpr (fun he => ?_)
    exact h { id := "kelvin", name := "Kelvin", symbol := "K" }
      (by simp [temperatureUnits]) he.symm
  unfold convertTemperature jsRecordGet
  rw [List.find?_eq_none.mpr (fun x hx => by simpa using h x hx),
    if_pos (by simpa using hp)]
  simp only [hc, hf, hk]
  rfl

/-- C5 (amended): for every value and every unit id that is absent from the
category table and is not an `Object.prototype` property name, each engine
(length, volume, weight, temperature) fails with the `Invalid unit ID`
error, whose message contains the offending id, and produces no results.
For absent ids that are `Object.prototype` property names (`"toString"`,
`"constructor"`, …) the truthy inherited lookup passes the `!fromUnit`
guard instead: the linear engines throw a `TypeError` that does not name
the id, and the temperature engine throws
`Unsupported temperature unit: <id>` from the `switch` default. -/
theorem claim_C5_unknown_unit (value : ℚ) (fromUnitId : String) :
    (fromUnitId ∉ objectProtoKeys →
      ((∀ u ∈ lengthUnits, u.id ≠ fromUnitId) →
        convertLength value fromUnitId = .error (unknownUnitError fromUnitId)) ∧
      ((∀ u ∈ volumeUnits, u.id ≠ fromUnitId) →
        convertVolume value fromUnitId = .error (unknownUnitError fromUnitId)) ∧
      ((∀ u ∈ weightUnits, u.id ≠ fromUnitId) →
        convertWeight value fromUnitId = .error (unknownUnitError fromUnitId)) ∧
      ((∀ u ∈ temperatureUnits, u.id ≠ fromUnitId) →
        convertTemperature value fromUnitId = .error (unknownUnitError fromUnitId))) ∧
    (fromUnitId ∈ objectProtoKeys →
      ((∀ u ∈ lengthUnits, u.id ≠ fromUnitId) →
        convertLength value fromUnitId = .error protoCallTypeError) ∧
      ((∀ u ∈ volumeUnits, u.id ≠ fromUnitId) →
        convertVolume value fromUnitId = .error protoCallTypeError) ∧
      ((∀ u ∈ weightUnits, u.id ≠ fromUnitId) →
        convertWeight value fromUnitId = .error protoCallTypeError) ∧
      ((∀ u ∈ temperatureUnits, u.id ≠ fromUnitId) →
        convertTemperature value fromUnitId =
          .error { name := "Error",
                   message := "Unsupported temperature unit: " ++ fromUnitId })) ∧
    fromUnitId.data <:+: (unknownUnitError fromUnitId).message.data := by
  refine ⟨fun hp => ⟨fun h => convertLinear_unknown lengthUnits value fromUnitId h hp,
                     fun h => convertLinear_unknown volumeUnits value fromUnitId h hp,
                     fun h => convertLinear_unknown weightUnits value fromUnitId h hp,
                     fun h => convertTemperature_unknown value fromUnitId h hp⟩,
          fun hp => ⟨fun h => convertLinear_proto lengthUnits value fromUnitId h hp,
                     fun h => convertLinear_proto volumeUnits value fromUnitId h hp,
                     fun h => convertLinear_proto weightUnits value fromUnitId h hp,
                     fun h => convertTemperature_proto value fromUnitId h hp⟩, ?_⟩
  exact ⟨"Invalid unit ID: ".data, [], by simp [unknownUnitError, String.data_append]⟩

/-- Counterexample to C5 as stated: `"toString"` is absent from every
table, yet `convertLength` fails with a `TypeError` whose message does not
contain the offending id (no `Invalid unit ID` error), and
`convertTemperature` fails with the `switch`-default message instead of the
lookup error. -/
theorem claim_C5_unknown_unit_counterexample :
    (∀ u ∈ lengthUnits, u.id ≠ "toString") ∧
    (∀ u ∈ temperatureUnits, u.id ≠ "toString") ∧
    convertLength 1 "toString" =
      .error { name := "TypeError", message := "fromUnit.toBase is not a function" } ∧
    ¬ ("toString" : String).data <:+:
        ("fromUnit.toBase is not a function" : String).data ∧
    convertTemperature 1 "toString" =
      .error { name := "Error", message := "Unsupported temperature unit: toString" } := by
  refine ⟨by decide, by decide, ?_, by decide, ?_⟩
  · exact convertLinear_proto lengthUnits 1 "toString" (by decide) (by decide)
  · exact convertTemperature_proto 1 "toString" (by decide) (by decide)

/-- Witness for C5 (amended) at the spec's example id `"not-a-real-unit"`
for the unknown-id branch and at `"toString"` for the prototype branch. -/
theorem claim_C5_unknown_unit_witness :
    (convertLength 1 "not-a-real-unit" = .error (unknownUnitError "not-a-real-unit") ∧
      convertVolume 1 "not-a-real-unit" = .error (unknownUnitError "not-a-real-unit") ∧
      convertWeight 1 "not-a-real-unit" = .error (unknownUnitError "not-a-real-unit") ∧
      convertTemperature 1 "not-a-real-unit" = .error (unknownUnitError "not-a-real-unit")) ∧
    (convertLength 1 "valueOf" = .error protoCallTypeError ∧
      convertVolume 1 "valueOf" = .error protoCallTypeError ∧
      convertWeight 1 "valueOf" = .error protoCallTypeError ∧
      convertTemperature 1 "valueOf" =
        .error { name := "Error", message := "Unsupported temperature unit: " ++ "valueOf" }) ∧
    ("not-a-real-unit" : String).data <:+:
      (unknownUnitError "not-a-real-unit").message.data := by
  refine ⟨?_, ?_, (claim_C5_unknown_unit 1 "not-a-real-unit").2.2⟩
  · have h := (claim_C5_unknown_unit 1 "not-a-real-unit").1 (by decide)
    exact ⟨h.1 (by decide), h.2.1 (by decide), h.2.2.1 (by decide), h.2.2.2 (by decide)⟩
  · have h := (claim_C5_unknown_unit 1 "valueOf").2.1 (by decide)
    exact ⟨h.1 (by decide), h.2.1 (by decide), h.2.2.1 (by decide), h.2.2.2 (by decide)⟩

/-- C2: every unit of every linear category satisfies the round-trip
identity `fromBase (toBase x) = x` exactly in ℚ, hence in particular within
the claimed relative tolerance of 1e-9. -/
theorem claim_C2_roundtrip (u : UnitDef)
    (hu : u ∈ lengthUnits ∨ u ∈ volumeUnits ∨ u ∈ weightUnits) (x : ℚ) :
    |u.fromBase (u.toBase x) - x| ≤ 1 / 1000000000 * |x| := by
  have key : u.fromBase (u.toBase x) = x := by
    rcases hu with h | h | h
    · simp only [lengthUnits, List.mem_cons, List.not_mem_nil, or_false] at h
      rcases h with rfl | rfl | rfl | rfl | rfl | rfl | rfl | rfl <;> (dsimp only; try ring)
    · simp only [volumeUnits, List.mem_cons, List.not_mem_nil, or_false] at h
      rcases h with rfl | rfl | rfl | rfl | rfl | rfl | rfl <;> (dsimp only; try ring)
    · simp only [weightUnits, List.mem_cons, List.not_mem_nil, or_false] at h
      rcases h with rfl | rfl | rfl | rfl | rfl | rfl | rfl <;> (dsimp only; try ring)
  rw [key, sub_self, abs_zero]
  positivity

/-- Witness for C2 at the kilometer unit and `x = 3`. -/
theorem claim_C2_roundtrip_witness :
    |(lengthUnits.get ⟨0, by decide⟩).fromBase
        ((lengthUnits.get ⟨0, by decide⟩).toBase 3) - 3| ≤ 1 / 1000000000 * |(3 : ℚ)| :=
  claim_C2_roundtrip _ (Or.inl (List.get_mem lengthUnits 0 (by decide))) 3

/-- Compute `jsRound` from the floor characterization. -/
theorem jsRound_eq (q : ℚ) (k : ℤ) (h1 : (k : ℚ) ≤ q + 1/2) (h2 : q + 1/2 < k + 1) :
    jsRound q = k := by
  rw [jsRound]
  exact Int.floor_eq_iff.mpr ⟨h1, h2⟩

/-- Compute `halfExpandRound` from the floor characterization. -/
theorem halfExpandRound_eq (q : ℚ) (k : ℤ) (h1 : (k : ℚ) ≤ q + 1/2)
    (h2 : q + 1/2 < k + 1) : halfExpandRound q = k := by
  rw [halfExpandRound]
  exact Int.floor_eq_iff.mpr ⟨h1, h2⟩

/-- Unfold `twoDecString` once the inner rounding is known. -/
theorem twoDecString_eval (q : ℚ) (n : ℤ) (hn : halfExpandRound (|q| * 100) = n) :
    twoDecString q =
      (if q < 0 then "-" else "") ++ commaGroupNat (n.toNat / 100) ++ "." ++
        pad2 (n.toNat % 100) := by
  simp only [twoDecString, hn]

/-- C3: the formatter treats `num` as whole exactly when
`|num - round(num)| < 0.0001`, rendering whole numbers as the rounded
integer with comma grouping and no decimal point, and everything else with
exactly two digits after the decimal point — checked by the split rule and
the spec's concrete renderings. -/
theorem claim_C3_formatter (num : ℚ) :
    (|num - (jsRound num : ℚ)| < 1/10000 →
        formatNumber num = formatWholeInt (jsRound num)) ∧
    (¬ |num - (jsRound num : ℚ)| < 1/10000 →
        formatNumber num = twoDecString num) ∧
    formatNumber 5 = "5" ∧ formatNumber 1000 = "1,000" ∧
    formatNumber (-1000) = "-1,000" ∧
    formatNumber (314159/100000) = "3.14" ∧ formatNumber (10999/1000) = "11.00" := by
  have h5 : jsRound (5 : ℚ) = 5 := jsRound_eq _ _ (by norm_num) (by norm_num)
  have h1000 : jsRound (1000 : ℚ) = 1000 := jsRound_eq _ _ (by norm_num) (by norm_num)
  have hm1000 : jsRound (-1000 : ℚ) = -1000 := jsRound_eq _ _ (by norm_num) (by norm_num)
  have hpi : jsRound (314159/100000 : ℚ) = 3 := jsRound_eq _ _ (by norm_num) (by norm_num)
  have h11 : jsRound (10999/1000 : ℚ) = 11 := jsRound_eq _ _ (by norm_num) (by norm_num)
  have hpi2 : halfExpandRound (|(314159/100000 : ℚ)| * 100) = 314 := by
    rw [abs_of_nonneg (by norm_num)]
    exact halfExpandRound_eq _ _ (by norm_num) (by norm_num)
  have h112 : halfExpandRound (|(10999/1000 : ℚ)| * 100) = 1100 := by
    rw [abs_of_nonneg (by norm_num)]
    exact halfExpandRound_eq _ _ (by norm_num) (by norm_num)
  refine ⟨fun h => ?_, fun h => ?_, ?_, ?_, ?_, ?_, ?_⟩
  · rw [formatNumber, if_pos h]
  · rw [formatNumber, if_neg h]
  · rw [formatNumber, if_pos (by rw [h5]; norm_num), h5]
    decide
  · rw [formatNumber, if_pos (by rw [h1000]; norm_num), h1000]
    decide
  · rw [formatNumber, if_pos (by rw [hm1000]; norm_num), hm1000]
    decide
  · rw [formatNumber,
      if_neg (by rw [hpi]; intro hcon; rw [abs_of_nonneg (by norm_num)] at hcon; norm_num at hcon),
      twoDecString_eval _ _ hpi2, if_neg (by norm_num)]
    decide
  · rw [formatNumber,
      if_neg (by rw [h11]; intro hcon; rw [abs_of_nonpos (by norm_num)] at hcon; norm_num at hcon),
      twoDecString_eval _ _ h112, if_neg (by norm_num)]
    decide

/-- Witness for C3: the whole branch at `5`, the decimal branch at
`3.14159`. -/
theorem claim_C3_formatter_witness :
    formatNumber 5 = formatWholeInt (jsRound 5) ∧
    formatNumber (314159/100000) = twoDecString (314159/100000) := by
  have h5 : jsRound (5 : ℚ) = 5 := jsRound_eq _ _ (by norm_num) (by norm_num)
  have hpi : jsRound (314159/100000 : ℚ) = 3 := jsRound_eq _ _ (by norm_num) (by norm_num)
  exact ⟨(claim_C3_formatter 5).1 (by rw [h5]; norm_num),
         (claim_C3_formatter (314159/100000)).2.1
           (by rw [hpi]; intro hcon; rw [abs_of_nonneg (by norm_num)] at hcon; norm_num at hcon)⟩

/-- C4: for each of the three temperature scales, `convertTemperature`
returns exactly the two other scales, with values given by the exact
pairwise formulas passed through the numeric formatter. -/
theorem claim_C4_temperature (value : ℚ) :
    convertTemperature value "celsius" =
      .ok [ { unitId := "fahrenheit", unitName := "Fahrenheit", symbol := "°F",
              value := formatNumber (value * 9 / 5 + 32) },
            { unitId := "kelvin", unitName := "Kelvin", symbol := "K",
              value := formatNumber (value + 273.15) } ] ∧
    convertTemperature value "fahrenheit" =
      .ok [ { unitId := "celsius", unitName := "Celsius", symbol := "°C",
              value := formatNumber ((value - 32) * 5 / 9) },
            { unitId := "kelvin", unitName := "Kelvin", symbol := "K",
              value := formatNumber ((value - 32) * 5 / 9 + 273.15) } ] ∧
    convertTemperature value "kelvin" =
      .ok [ { unitId := "celsius", unitName := "Celsius", symbol := "°C",
              value := formatNumber (value - 273.15) },
            { unitId := "fahrenheit", unitName := "Fahrenheit", symbol := "°F",
              value := formatNumber ((value - 273.15) * 9 / 5 + 32) } ] :=
  ⟨rfl, rfl, rfl⟩

/-- C9: the compare mode's difference is always `second - first`; the
percentage is `diff / first * 100` for a nonzero first operand and exactly
`0` (a plain number, not an error value) when `first = 0`. -/
theorem claim_C9_compare (first second : ℚ) :
    (handleCompare first second).1 = second - first ∧
    (first ≠ 0 → (handleCompare first second).2 = (second - first) / first * 100) ∧
    (first = 0 → (handleCompare first second).2 = 0) := by
  refine ⟨rfl, fun h => ?_, fun h => ?_⟩
  · simp [handleCompare, h]
  · simp [handleCompare, h]

/-- Witness for C9 at the spec's scenarios `compare(200, 205)` and
`compare(0, 5)`. -/
theorem claim_C9_compare_witness :
    (handleCompare 200 205).2 = (205 - 200) / 200 * 100 ∧
    (handleCompare 0 5).2 = 0 := by
  exact ⟨(claim_C9_compare 200 205).2.1 (by norm_num),
         (claim_C9_compare 0 5).2.2 rfl⟩

/-- Rounding a whole-day millisecond difference with a sub-half-day drift
recovers the day count. -/
theorem jsRound_day_multiple (d delta : ℤ) (hlo : -7200000 ≤ delta)
    (hhi : delta ≤ 7200000) :
    jsRound (((86400000 * d + delta : ℤ) : ℚ) / 86400000) = d := by
  have hlo' : (-7200000 : ℚ) ≤ (delta : ℚ) := by exact_mod_cast hlo
  have hhi' : (delta : ℚ) ≤ 7200000 := by exact_mod_cast hhi
  have hX : ((86400000 * d + delta : ℤ) : ℚ) = 86400000 * (d : ℚ) + (delta : ℚ) := by
    push_cast
    ring
  have heq : (86400000 * (d : ℚ) + (delta : ℚ)) / 86400000 =
      (d : ℚ) + (delta : ℚ) / 86400000 := by
    field_simp
    ring
  have hlt : (delta : ℚ) / 86400000 < 1/2 := by
    rw [div_lt_iff₀ (by norm_num : (0:ℚ) < 86400000)]
    linarith
  have hge : (-(1/2) : ℚ) ≤ (delta : ℚ) / 86400000 := by
    rw [le_div_iff₀ (by norm_num : (0:ℚ) < 86400000)]
    linarith
  rw [jsRound]
  refine Int.floor_eq_iff.mpr ⟨?_, ?_⟩
  · rw [hX, heq]
    linarith
  · rw [hX, heq]
    linarith

/-- C8: when the two (time-of-day-zeroed) dates are `d` calendar days apart
— their instants differing by `86,400,000·d` ms up to a DST drift of at most
two hours — the form's day difference is exactly
`round((toDate − fromDate) / 86,400,000) = d`: positive exactly for a later
`toDate`, negative for an earlier one, zero for the same day. -/
theorem claim_C8_date_diff (fromMs toMs d delta : ℤ)
    (hsplit : toMs - fromMs = 86400000 * d + delta)
    (hlo : -7200000 ≤ delta) (hhi : delta ≤ 7200000) :
    dateDiffDays fromMs toMs = d ∧
    dateDiffDays fromMs toMs = jsRound (((toMs - fromMs : ℤ) : ℚ) / 86400000) ∧
    (0 < dateDiffDays fromMs toMs ↔ 0 < d) ∧
    (dateDiffDays fromMs toMs < 0 ↔ d < 0) ∧
    (dateDiffDays fromMs toMs = 0 ↔ d = 0) := by
  have key : dateDiffDays fromMs toMs = d := by
    rw [dateDiffDays, show ((1000 : ℚ) * 60 * 60 * 24) = 86400000 by norm_num, hsplit]
    exact jsRound_day_multiple d delta hlo hhi
  refine ⟨key, ?_, by rw [key], by rw [key], by rw [key]⟩
  rw [dateDiffDays, show ((1000 : ℚ) * 60 * 60 * 24) = 86400000 by norm_num]

/-- Witness for C8: consecutive midnights (one day apart, no drift). -/
theorem claim_C8_date_diff_witness :
    dateDiffDays 0 86400000 = 1 ∧
    dateDiffDays 0 86400000 = jsRound (((86400000 - 0 : ℤ) : ℚ) / 86400000) ∧
    (0 < dateDiffDays 0 86400000 ↔ 0 < (1 : ℤ)) ∧
    (dateDiffDays 0 86400000 < 0 ↔ (1 : ℤ) < 0) ∧
    (dateDiffDays 0 86400000 = 0 ↔ (1 : ℤ) = 0) :=
  claim_C8_date_diff 0 86400000 1 0 (by norm_num) (by norm_num) (by norm_num)

/-- C10: the empty string and every all-whitespace string pass both Unix
timestamp validators, because `Number` coerces them to `0`, which is finite
and inside `[0, 4102444800]` (resp. `[0, 4102444800000]`). -/
theorem claim_C10_whitespace_valid (s : String)
    (h : ∀ c ∈ s.data, jsWhitespace c = true) :
    jsToNumber s = .fin 0 ∧
    isValidUnixSeconds s = true ∧ isValidUnixMilliseconds s = true := by
  have ht : ((s.data.dropWhile jsWhitespace).reverse.dropWhile jsWhitespace).reverse
      = ([] : List Char) := by
    rw [List.dropWhile_eq_nil_iff.mpr h]
    rfl
  have hnum : jsToNumber s = .fin 0 := by
    rw [jsToNumber, ht]
  refine ⟨hnum, ?_, ?_⟩
  · rw [isValidUnixSeconds, hnum]
    rfl
  · rw [isValidUnixMilliseconds, hnum]
    rfl

/-- Witness for C10 at the empty string and a two-space string. -/
theorem claim_C10_whitespace_valid_witness :
    (jsToNumber "" = .fin 0 ∧
      isValidUnixSeconds "" = true ∧ isValidUnixMilliseconds "" = true) ∧
    (jsToNumber "  " = .fin 0 ∧
      isValidUnixSeconds "  " = true ∧ isValidUnixMilliseconds "  " = true) := by
  exact ⟨claim_C10_whitespace_valid "" (by decide),
         claim_C10_whitespace_valid "  " (by decide)⟩

/-- C6: for every datetime string that does not parse to a valid instant
(in every timezone environment), `fromLocalDatetime` and `fromUTCDatetime`
fail with the surfaced invalid-time error — the `RangeError` thrown by
`toISOString` inside `convertDate` — and so never return a
`TimeConversionResult` carrying sentinel invalid-date values. -/
theorem claim_C6_invalid_datetime (tz : Tz) (s : String)
    (h : jsParseDate tz s = none) :
    fromLocalDatetime tz s =
      .error { name := "RangeError", message := "Invalid time value" } ∧
    fromUTCDatetime tz s =
      .error { name := "RangeError", message := "Invalid time value" } := by
  rw [fromLocalDatetime, fromUTCDatetime, h]
  exact ⟨rfl, rfl⟩

/-- Witness for C6 at the unparseable string `"not-a-date"`. -/
theorem claim_C6_invalid_datetime_witness :
    fromLocalDatetime utcTz "not-a-date" =
      .error { name := "RangeError", message := "Invalid time value" } ∧
    fromUTCDatetime utcTz "not-a-date" =
      .error { name := "RangeError", message := "Invalid time value" } :=
  claim_C6_invalid_datetime utcTz "not-a-date" (by decide)

/-- Truncation toward zero fixes integers. -/
theorem jsTrunc_intCast (n : ℤ) : jsTrunc (n : ℚ) = n := by
  rw [jsTrunc]
  split
  · exact Int.floor_intCast n
  · exact Int.ceil_intCast n

/-- `new Date(n)` for an in-range integral argument is the valid date `n`. -/
theorem mkDateFromNum_intCast (n : ℤ) (h : n.natAbs ≤ 8640000000000000) :
    mkDateFromNum (n : ℚ) = some n := by
  have h' : |n| ≤ (8640000000000000 : ℤ) := by
    rw [Int.abs_eq_natAbs]
    exact_mod_cast h
  have hcond : |(n : ℚ)| ≤ 8640000000000000 := by
    rw [← Int.cast_abs]
    exact_mod_cast h'
  rw [mkDateFromNum, if_pos hcond, jsTrunc_intCast]

/-- C7: every result `convertDate` produces satisfies
`unixSeconds = floor(unixMilliseconds / 1000)`; `fromUnixSeconds s` (for an
accepted, in-`Date`-range integer `s`) yields `unixMilliseconds = s·1000`
and `unixSeconds = s`; `fromUnixMilliseconds ms` yields
`unixMilliseconds = ms` and `unixSeconds = floor(ms / 1000)`. -/
theorem claim_C7_unix_projection :
    (∀ (tz : Tz) (d : Option ℤ),
        (convertDate tz d).map TimeConversionResult.unixSeconds =
          (convertDate tz d).map (fun r => r.unixMilliseconds.fdiv 1000)) ∧
    (∀ (tz : Tz) (s : ℤ), s.natAbs ≤ 8640000000000 →
        (fromUnixSeconds tz (s : ℚ)).map
          (fun r => (r.unixMilliseconds, r.unixSeconds)) = .ok (s * 1000, s)) ∧
    (∀ (tz : Tz) (ms : ℤ), ms.natAbs ≤ 8640000000000000 →
        (fromUnixMilliseconds tz (ms : ℚ)).map
          (fun r => (r.unixMilliseconds, r.unixSeconds)) = .ok (ms, ms.fdiv 1000)) := by
  refine ⟨fun tz d => ?_, fun tz s h => ?_, fun tz ms h => ?_⟩
  · cases d with
    | none => rfl
    | some ms => rfl
  · have hcast : ((s : ℚ) * 1000) = ((s * 1000 : ℤ) : ℚ) := by
      push_cast
      ring
    have hmk : mkDateFromNum ((s : ℚ) * 1000) = some (s * 1000) := by
      rw [hcast]
      refine mkDateFromNum_intCast _ ?_
      rw [Int.natAbs_mul]
      exact le_trans (Nat.mul_le_mul_right _ h) (by norm_num)
    rw [fromUnixSeconds, hmk]
    simp only [convertDate, Except.map]
    rw [Int.mul_fdiv_cancel s (by norm_num)]
  · have hmk : mkDateFromNum ((ms : ℚ)) = some ms := mkDateFromNum_intCast _ h
    rw [fromUnixMilliseconds, hmk]
    simp only [convertDate, Except.map]

/-- Witness for C7 at the spec's scenario timestamp `1640995200`
(2022-01-01T00:00:00Z) and its millisecond form. -/
theorem claim_C7_unix_projection_witness :
    (fromUnixSeconds utcTz ((1640995200 : ℤ) : ℚ)).map
        (fun r => (r.unixMilliseconds, r.unixSeconds)) =
      .ok (1640995200 * 1000, 1640995200) ∧
    (fromUnixMilliseconds utcTz ((1640995200000 : ℤ) : ℚ)).map
        (fun r => (r.unixMilliseconds, r.unixSeconds)) =
      .ok (1640995200000, (1640995200000 : ℤ).fdiv 1000) := by
  exact ⟨claim_C7_unix_projection.2.1 utcTz 1640995200 (by decide),
         claim_C7_unix_projection.2.2 utcTz 1640995200000 (by decide)⟩
